import Mathlib

/-!
Verification of cse-error500-cleanup: the two deleters and the entry point of `main.go`.

The program is a straight-line sequence of calls into the go-vcloud-director SDK.
The SDK (and the two standard-library calls used by `initVCDClient`) is not part of
the program, so it enters the embedding as a record of operations `SDK σ` over an
arbitrary world state `σ`.  Every function of `main.go` is translated statement by
statement into a function that threads the world through the SDK operations and
returns, next to the Go return value, the list of calls and prints it performed.
-/

set_option autoImplicit false

namespace Cleanup

/-! ## Go values -/

/-- A Go `error` value.  `sdk` is a value handed back by a collaborator, `errorf` a value
freshly built by `fmt.Errorf`; both carry the text returned by their `Error()` method. -/
inductive GoError where
  | sdk (msg : String)
  | errorf (msg : String)
  deriving DecidableEq, Repr

/-- The `Error()` method of a Go error. -/
def GoError.Error : GoError → String
  | .sdk m => m
  | .errorf m => m

/-- The value `*govcd.VCDClient`. -/
structure VCDClient where
  href : String
  deriving DecidableEq, Repr

/-- The value `*govcd.Org`. -/
structure Org where
  name : String
  deriving DecidableEq, Repr

/-- The value `*govcd.Vdc`. -/
structure Vdc where
  org : String
  name : String
  deriving DecidableEq, Repr

/-- The value `*govcd.VApp`; `status` is the field `vApp.VApp.Status` (a Go `int`). -/
structure VApp where
  org : String
  vdc : String
  name : String
  status : Int
  deriving DecidableEq, Repr

/-- The value `govcd.Task` returned by `vApp.Delete()`. -/
structure Task where
  href : String
  deriving DecidableEq, Repr

/-- The value `*govcd.DefinedEntityType`. -/
structure DefinedEntityType where
  vendor : String
  nss : String
  version : String
  deriving DecidableEq, Repr

/-- The value `*govcd.DefinedEntity`. -/
structure DefinedEntity where
  id : Nat
  name : String
  deriving DecidableEq, Repr

/-- Everything the program does that is visible from outside: the collaborator calls
(with their arguments), the lines written by `fmt.Printf`, the write to the global
`util.EnableLogging`, and the two ways the process can die. -/
inductive Event where
  | setEnableLogging (value : Bool)
  | parseRequestURI (rawURL : String)
  | newVCDClient (url : String) (insecure : Bool)
  | setApiToken (client : VCDClient) (org token : String)
  | getOrgByName (client : VCDClient) (orgName : String)
  | getVDCByName (org : Org) (vdcName : String) (refresh : Bool)
  | getVAppByName (vdc : Vdc) (vAppName : String) (refresh : Bool)
  | printf (out : String)
  | vAppDelete (vApp : VApp)
  | waitTaskCompletion (task : Task)
  | getRdeType (client : VCDClient) (vendor nss version : String)
  | getRdesByName (rdeType : DefinedEntityType) (name : String)
  | rdeDelete (rde : DefinedEntity)
  | fatalf (msg : String)
  | goPanic (msg : String)
  deriving DecidableEq, Repr

/-- The collaborators of `main.go`: the go-vcloud-director SDK, `url.ParseRequestURI`
and the table `types.VAppStatuses`.  Each remote operation maps the world before the
call to its Go result and the world after the call. -/
structure SDK (σ : Type) where
  parseRequestURI : String → Except GoError String
  newVCDClient : String → Bool → σ → VCDClient × σ
  setApiToken : VCDClient → String → String → σ → Option GoError × σ
  getOrgByName : VCDClient → String → σ → Except GoError Org × σ
  getVDCByName : Org → String → Bool → σ → Except GoError Vdc × σ
  getVAppByName : Vdc → String → Bool → σ → Except GoError VApp × σ
  vAppStatuses : Int → Option String
  vAppDelete : VApp → σ → Except GoError Task × σ
  waitTaskCompletion : Task → σ → Option GoError × σ
  getRdeType : VCDClient → String → String → String → σ → Except GoError DefinedEntityType × σ
  getRdesByName : DefinedEntityType → String → σ → Except GoError (List DefinedEntity) × σ
  rdeDelete : DefinedEntity → σ → Option GoError × σ

/-- The Go function `strings.HasPrefix(s, prefix)`: whether `s` begins with `prefix`.  Go
compares bytes; on text, which is what error messages are, that is the comparison of the
characters made here. -/
def HasPrefix (s pre : String) : Bool :=
  pre.toList.isPrefixOf s.toList

/-- The literal tested by both deleters on a failed lookup. -/
def enfMarker : String := "[ENF] entity not found"

/-- The Go expression `types.VAppStatuses[status]`: a map read, which yields the zero value
`""` for a key that is not in the map. -/
def statusString {σ : Type} (sdk : SDK σ) (status : Int) : String :=
  match sdk.vAppStatuses status with
  | some s => s
  | none => ""

/-- How a Go function returning `error` ends: it returns (`nil` is `none`) or it panics. -/
inductive Outcome where
  | returned (err : Option GoError)
  | panicked (msg : String)
  deriving DecidableEq, Repr

/-- Result of running one function of `main.go`: what it gave back, the world after it,
and the events it produced, oldest first. -/
structure Run (α σ : Type) where
  result : α
  world : σ
  trace : List Event

/-! ## The functions of `main.go` -/

/-- The Go function `initVCDClient` (main.go 17-35). -/
def initVCDClient {σ : Type} (sdk : SDK σ) (vcdUrl orgName apiToken : String) (w : σ) :
    Run (Except GoError VCDClient) σ :=
  match sdk.parseRequestURI (vcdUrl ++ "/api") with
  | .error err =>
    ⟨.error err, w, [.setEnableLogging true, .parseRequestURI (vcdUrl ++ "/api")]⟩
  | .ok url =>
    match sdk.newVCDClient url false w with
    | (client, w1) =>
      match sdk.setApiToken client orgName apiToken w1 with
      | (some err, w2) =>
        ⟨.error err, w2, [.setEnableLogging true, .parseRequestURI (vcdUrl ++ "/api"),
          .newVCDClient url false, .setApiToken client orgName apiToken]⟩
      | (none, w2) =>
        ⟨.ok client, w2, [.setEnableLogging true, .parseRequestURI (vcdUrl ++ "/api"),
          .newVCDClient url false, .setApiToken client orgName apiToken]⟩

/-- The Go function `deleteVAppByName` (main.go 37-79). -/
def deleteVAppByName {σ : Type} (sdk : SDK σ) (client : VCDClient)
    (orgName vdcName vAppName : String) (w : σ) : Run (Option GoError) σ :=
  match sdk.getOrgByName client orgName w with
  | (.error err, w1) =>
    ⟨some (.errorf ("error getting organization: " ++ err.Error)), w1,
      [.getOrgByName client orgName]⟩
  | (.ok org, w1) =>
    match sdk.getVDCByName org vdcName false w1 with
    | (.error err, w2) =>
      ⟨some (.errorf ("error getting VDC: " ++ err.Error)), w2,
        [.getOrgByName client orgName, .getVDCByName org vdcName false]⟩
    | (.ok vdc, w2) =>
      match sdk.getVAppByName vdc vAppName true w2 with
      | (.error err, w3) =>
        if HasPrefix err.Error enfMarker then
          ⟨none, w3, [.getOrgByName client orgName, .getVDCByName org vdcName false,
            .getVAppByName vdc vAppName true]⟩
        else
          ⟨some err, w3, [.getOrgByName client orgName, .getVDCByName org vdcName false,
            .getVAppByName vdc vAppName true]⟩
      | (.ok vApp, w3) =>
        if statusString sdk vApp.status ≠ "RESOLVED" then
          ⟨some (.errorf "vApp should be in RESOLVED state after HTTP500 error issue"), w3,
            [.getOrgByName client orgName, .getVDCByName org vdcName false,
              .getVAppByName vdc vAppName true,
              .printf ("vApp state: '" ++ statusString sdk vApp.status ++ "'\n")]⟩
        else
          match sdk.vAppDelete vApp w3 with
          | (.error err, w4) =>
            ⟨some (.errorf ("error deleting vApp: " ++ err.Error)), w4,
              [.getOrgByName client orgName, .getVDCByName org vdcName false,
                .getVAppByName vdc vAppName true,
                .printf ("vApp state: '" ++ statusString sdk vApp.status ++ "'\n"),
                .printf ("Deleting vApp '" ++ vAppName ++ "'...\n"),
                .vAppDelete vApp]⟩
          | (.ok task, w4) =>
            match sdk.waitTaskCompletion task w4 with
            | (some err, w5) =>
              ⟨some (.errorf ("error waiting for delete task completion: " ++ err.Error)), w5,
                [.getOrgByName client orgName, .getVDCByName org vdcName false,
                  .getVAppByName vdc vAppName true,
                  .printf ("vApp state: '" ++ statusString sdk vApp.status ++ "'\n"),
                  .printf ("Deleting vApp '" ++ vAppName ++ "'...\n"),
                  .vAppDelete vApp, .waitTaskCompletion task]⟩
            | (none, w5) =>
              ⟨none, w5,
                [.getOrgByName client orgName, .getVDCByName org vdcName false,
                  .getVAppByName vdc vAppName true,
                  .printf ("vApp state: '" ++ statusString sdk vApp.status ++ "'\n"),
                  .printf ("Deleting vApp '" ++ vAppName ++ "'...\n"),
                  .vAppDelete vApp, .waitTaskCompletion task,
                  .printf ("vApp '" ++ vAppName ++ "' successfully deleted.\n")]⟩

/-- The Go function `deleteCapvcdRdeByName` (main.go 81-103).  The index expression
`rdes[0]` panics on an empty slice. -/
def deleteCapvcdRdeByName {σ : Type} (sdk : SDK σ) (client : VCDClient) (rdeName : String)
    (w : σ) : Run Outcome σ :=
  match sdk.getRdeType client "vmware" "capvcdCluster" "1.3.0" w with
  | (.error err, w1) =>
    ⟨.returned (some (.errorf ("unable to get CAPVCD Cluster Rde Type v1.3.0: " ++ err.Error))),
      w1, [.getRdeType client "vmware" "capvcdCluster" "1.3.0"]⟩
  | (.ok capvcdRdeType, w1) =>
    match sdk.getRdesByName capvcdRdeType rdeName w1 with
    | (.error err, w2) =>
      if HasPrefix err.Error enfMarker then
        ⟨.returned none, w2, [.getRdeType client "vmware" "capvcdCluster" "1.3.0",
          .getRdesByName capvcdRdeType rdeName]⟩
      else
        ⟨.returned (some err), w2, [.getRdeType client "vmware" "capvcdCluster" "1.3.0",
          .getRdesByName capvcdRdeType rdeName]⟩
    | (.ok rdes, w2) =>
      if rdes.length > 1 then
        ⟨.returned (some (.errorf ("more then one RDE with name '" ++ rdeName ++
            "' has been found (very strange situation)"))), w2,
          [.getRdeType client "vmware" "capvcdCluster" "1.3.0",
            .getRdesByName capvcdRdeType rdeName]⟩
      else
        match rdes[0]? with
        | none =>
          ⟨.panicked "runtime error: index out of range [0] with length 0", w2,
            [.getRdeType client "vmware" "capvcdCluster" "1.3.0",
              .getRdesByName capvcdRdeType rdeName]⟩
        | some rde =>
          match sdk.rdeDelete rde w2 with
          | (some err, w3) =>
            ⟨.returned (some (.errorf ("error deleting CAPVCD RDE with name " ++ rdeName ++
                ": " ++ err.Error))), w3,
              [.getRdeType client "vmware" "capvcdCluster" "1.3.0",
                .getRdesByName capvcdRdeType rdeName, .rdeDelete rde]⟩
          | (none, w3) =>
            ⟨.returned none, w3,
              [.getRdeType client "vmware" "capvcdCluster" "1.3.0",
                .getRdesByName capvcdRdeType rdeName, .rdeDelete rde]⟩

/-- The Go function `main` (main.go 106-136) from line 123 on, with the five parsed flag
values as arguments.  The result is the exit status of the process: `log.Fatalf` writes
its message and exits with status 1, an uncaught panic exits with status 2. -/
def main {σ : Type} (sdk : SDK σ) (vcdUrl orgName vdcName apiToken name : String) (w : σ) :
    Run Nat σ :=
  match initVCDClient sdk vcdUrl orgName apiToken w with
  | ⟨.error err, w1, t1⟩ =>
    ⟨1, w1, t1 ++ [.fatalf ("Error initializing vCloud Director client: " ++ err.Error)]⟩
  | ⟨.ok vcdClient, w1, t1⟩ =>
    match deleteCapvcdRdeByName sdk vcdClient name w1 with
    | ⟨.panicked msg, w2, t2⟩ => ⟨2, w2, t1 ++ t2 ++ [.goPanic msg]⟩
    | ⟨.returned (some err), w2, t2⟩ =>
      ⟨1, w2, t1 ++ t2 ++ [.fatalf ("Error deleting CAPVCD RDE: " ++ err.Error)]⟩
    | ⟨.returned none, w2, t2⟩ =>
      match deleteVAppByName sdk vcdClient orgName vdcName name w2 with
      | ⟨some err, w3, t3⟩ =>
        ⟨1, w3, t1 ++ t2 ++ t3 ++ [.fatalf ("Error deleting vApp: " ++ err.Error)]⟩
      | ⟨none, w3, t3⟩ => ⟨0, w3, t1 ++ t2 ++ t3⟩

/-! ## A model of the remote control plane -/

/-- A status table as go-vcloud-director ships it in `types.VAppStatuses`
(types/v56/constants.go).  The table belongs to the SDK, so the general theorems take it as
the field `SDK.vAppStatuses`; this one serves the remote model and the concrete runs. -/
def vAppStatuses : Int → Option String
  | -1 => some "FAILED_CREATION"
  | 0 => some "UNRESOLVED"
  | 1 => some "RESOLVED"
  | 2 => some "DEPLOYED"
  | 3 => some "SUSPENDED"
  | 4 => some "POWERED_ON"
  | 5 => some "WAITING_FOR_INPUT"
  | 6 => some "UNKNOWN"
  | 7 => some "UNRECOGNIZED"
  | 8 => some "POWERED_OFF"
  | 9 => some "INCONSISTENT_STATE"
  | 10 => some "MIXED"
  | 11 => some "DESCRIPTOR_PENDING"
  | 12 => some "COPYING_CONTENTS"
  | 13 => some "DISK_CONTENTS_PENDING"
  | 14 => some "QUARANTINED"
  | 15 => some "QUARANTINE_EXPIRED"
  | 16 => some "REJECTED"
  | 17 => some "TRANSFER_TIMEOUT"
  | 18 => some "VAPP_UNDEPLOYED"
  | 19 => some "VAPP_PARTIALLY_DEPLOYED"
  | _ => none

/-- One stored declarative entity: its type and the entity itself. -/
structure RdeRec where
  typ : DefinedEntityType
  entity : DefinedEntity
  deriving DecidableEq, Repr

/-- Modelled from the spec: the state of the remote control plane, which the program only
reaches through the SDK.  It holds the registered entity types, the stored declarative
entities, the organizations, the virtual datacenters (organization, name) and the vApps,
and three fixed faults that make the corresponding operation fail whenever it is tried. -/
structure Remote where
  rdeTypes : List DefinedEntityType
  rdes : List RdeRec
  orgs : List String
  vdcs : List (String × String)
  vapps : List VApp
  rdeDeleteFault : Option GoError
  vAppDeleteFault : Option GoError
  taskFault : Option GoError
  deriving DecidableEq, Repr

/-- The error every lookup of the model gives for an absent object. -/
def entityNotFound : GoError := .sdk "[ENF] entity not found"

/-- Whether a stored entity has the given type and name. -/
def rdeMatches (t : DefinedEntityType) (name : String) (r : RdeRec) : Bool :=
  decide (r.typ = t) && decide (r.entity.name = name)

/-- Whether a stored vApp is the one called `name` in the given datacenter. -/
def vAppMatches (vdc : Vdc) (name : String) (v : VApp) : Bool :=
  decide (v.org = vdc.org) && (decide (v.vdc = vdc.name) && decide (v.name = name))

/-- The remote state without the entities that carry the given id. -/
def Remote.dropRde (s : Remote) (id : Nat) : Remote :=
  { s with rdes := s.rdes.filter (fun r => !decide (r.entity.id = id)) }

/-- The remote state without the vApp called `name` in the given datacenter. -/
def Remote.dropVApp (s : Remote) (vdc : Vdc) (name : String) : Remote :=
  { s with vapps := s.vapps.filter (fun x => !vAppMatches vdc name x) }

/-- Modelled from the spec: the operations of the remote control plane over `Remote`.
Lookups leave the state alone and fail with the not-found marker for an absent object;
a by-name query gives all entities of that type and name; a successful entity delete
removes the entity with that id; a successful vApp delete removes the vApp of that
datacenter and name (the spec identifies a vApp by its name within a datacenter). -/
def remoteSDK : SDK Remote where
  parseRequestURI := fun raw => .ok raw
  newVCDClient := fun url _ w => (⟨url⟩, w)
  setApiToken := fun _ _ _ w => (none, w)
  getOrgByName := fun _ n w =>
    if n ∈ w.orgs then (.ok ⟨n⟩, w) else (.error entityNotFound, w)
  getVDCByName := fun org n _ w =>
    if (org.name, n) ∈ w.vdcs then (.ok ⟨org.name, n⟩, w) else (.error entityNotFound, w)
  getVAppByName := fun vdc n _ w =>
    match w.vapps.find? (vAppMatches vdc n) with
    | some v => (.ok v, w)
    | none => (.error entityNotFound, w)
  vAppStatuses := vAppStatuses
  vAppDelete := fun v w =>
    match w.vAppDeleteFault with
    | some e => (.error e, w)
    | none =>
      (.ok ⟨"task/" ++ v.name⟩, w.dropVApp ⟨v.org, v.vdc⟩ v.name)
  waitTaskCompletion := fun _ w => (w.taskFault, w)
  getRdeType := fun _ vendor nss version w =>
    if (⟨vendor, nss, version⟩ : DefinedEntityType) ∈ w.rdeTypes then
      (.ok ⟨vendor, nss, version⟩, w)
    else (.error entityNotFound, w)
  getRdesByName := fun t name w =>
    match (w.rdes.filter (rdeMatches t name)).map RdeRec.entity with
    | [] => (.error entityNotFound, w)
    | e :: es => (.ok (e :: es), w)
  rdeDelete := fun e w =>
    match w.rdeDeleteFault with
    | some err => (some err, w)
    | none => (none, w.dropRde e.id)

/-! ## A scripted collaborator for concrete runs -/

/-- The answers a scripted collaborator gives, one per operation. -/
structure Script where
  parse : Except GoError String
  token : Option GoError
  org : Except GoError Org
  vdc : Except GoError Vdc
  vApp : Except GoError VApp
  delete : Except GoError Task
  wait : Option GoError
  rdeType : Except GoError DefinedEntityType
  rdes : Except GoError (List DefinedEntity)
  rdeDelete : Option GoError

/-- A collaborator that answers every call from the script; its world counts the remote
calls made so far. -/
def scripted (s : Script) : SDK Nat where
  parseRequestURI := fun _ => s.parse
  newVCDClient := fun url _ w => (⟨url⟩, w + 1)
  setApiToken := fun _ _ _ w => (s.token, w + 1)
  getOrgByName := fun _ _ w => (s.org, w + 1)
  getVDCByName := fun _ _ _ w => (s.vdc, w + 1)
  getVAppByName := fun _ _ _ w => (s.vApp, w + 1)
  vAppStatuses := vAppStatuses
  vAppDelete := fun _ w => (s.delete, w + 1)
  waitTaskCompletion := fun _ w => (s.wait, w + 1)
  getRdeType := fun _ _ _ _ w => (s.rdeType, w + 1)
  getRdesByName := fun _ _ w => (s.rdes, w + 1)
  rdeDelete := fun _ w => (s.rdeDelete, w + 1)

/-- The script in which every call succeeds: one entity, one vApp in status 1. -/
def happy : Script where
  parse := .ok "https://vcd.example/api"
  token := none
  org := .ok ⟨"acme"⟩
  vdc := .ok ⟨"acme", "dc1"⟩
  vApp := .ok ⟨"acme", "dc1", "c1", 1⟩
  delete := .ok ⟨"task/1"⟩
  wait := none
  rdeType := .ok ⟨"vmware", "capvcdCluster", "1.3.0"⟩
  rdes := .ok [⟨7, "c1"⟩]
  rdeDelete := none

/-- The client handle used in the concrete runs. -/
def client0 : VCDClient := ⟨"https://vcd.example/api"⟩

/-! ## Definitions used by the statements and the concrete runs -/

/-- Scripted run with two entities of the same name. -/
def twins : Script := { happy with rdes := .ok [⟨7, "c1"⟩, ⟨8, "c1"⟩] }

/-- Scripted run whose vApp has a status code outside the table. -/
def unknownStatus : Script := { happy with vApp := .ok ⟨"acme", "dc1", "c1", 42⟩ }

/-- Scripted run whose by-name query fails with the marker in the middle of the text. -/
def markerInside : Script :=
  { happy with rdes := .error (.sdk "query failed: [ENF] entity not found") }

/-- Scripted run whose by-name query reports not-found. -/
def rdeAbsent : Script :=
  { happy with rdes := .error (.sdk "[ENF] entity not found") }

/-- Scripted run whose vApp lookup reports not-found. -/
def vAppAbsent : Script :=
  { happy with vApp := .error (.sdk "[ENF] entity not found: c1") }

/-- Scripted run whose vApp delete call is rejected. -/
def deleteRejected : Script := { happy with delete := .error (.sdk "409 busy") }

/-- Scripted run whose delete task fails. -/
def taskFailed : Script := { happy with wait := some (.sdk "task error") }

/-- Scripted run whose by-name query succeeds with no entity at all. -/
def noEntity : Script := { happy with rdes := .ok [] }

/-- An error `ret` carries stage context around `e`: its message is a non-empty stage text
followed by the message of `e`. -/
def StageWrapped (ret e : GoError) : Prop :=
  ∃ stage : String, stage ≠ "" ∧ ret.Error = stage ++ e.Error

/-- Scripted run whose by-name query fails with an error that is not a not-found error. -/
def queryBoom : Script := { happy with rdes := .error (.sdk "boom") }

/-- Scripted run whose organization lookup fails. -/
def orgMissing : Script := { happy with org := .error (.sdk "no such org") }

/-- Events that only `deleteCapvcdRdeByName` produces. -/
def Event.isRdeStage : Event → Bool
  | .getRdeType _ _ _ _ => true
  | .getRdesByName _ _ => true
  | .rdeDelete _ => true
  | _ => false

/-- Events that only `deleteVAppByName` produces. -/
def Event.isVAppStage : Event → Bool
  | .getOrgByName _ _ => true
  | .getVDCByName _ _ _ => true
  | .getVAppByName _ _ _ => true
  | .printf _ => true
  | .vAppDelete _ => true
  | .waitTaskCompletion _ => true
  | _ => false

/-- Scripted run whose session cannot be established: the token is rejected. -/
def badToken : Script := { happy with token := some (.sdk "401 unauthorized") }

/-- The lines written to standard output, in order. -/
def printed : List Event → List String
  | [] => []
  | .printf out :: rest => out :: printed rest
  | _ :: rest => printed rest

/-- The state-changing remote steps: entity delete, vApp delete, task wait. -/
def Event.isDeleteStep : Event → Bool
  | .rdeDelete _ => true
  | .vAppDelete _ => true
  | .waitTaskCompletion _ => true
  | _ => false

/-- The entity type both runs look up. -/
def capvcdType : DefinedEntityType := ⟨"vmware", "capvcdCluster", "1.3.0"⟩

/-- A remote state with one cluster entity "c1", its vApp in status 1 (RESOLVED), and an
unrelated entity and vApp. -/
def remote0 : Remote where
  rdeTypes := [⟨"vmware", "capvcdCluster", "1.3.0"⟩]
  rdes := [⟨⟨"vmware", "capvcdCluster", "1.3.0"⟩, ⟨7, "c1"⟩⟩,
    ⟨⟨"vmware", "capvcdCluster", "1.3.0"⟩, ⟨8, "c2"⟩⟩]
  orgs := ["acme"]
  vdcs := [("acme", "dc1")]
  vapps := [⟨"acme", "dc1", "c2", 4⟩, ⟨"acme", "dc1", "c1", 1⟩]
  rdeDeleteFault := none
  vAppDeleteFault := none
  taskFault := none

/-! ## Helper lemmas -/

theorem hasPrefix_iff (s pre : String) :
    HasPrefix s pre = true ↔ ∃ rest : String, s = pre ++ rest := by
  unfold HasPrefix
  rw [List.isPrefixOf_iff_prefix]
  constructor
  · rintro ⟨t, ht⟩
    refine ⟨⟨t⟩, ?_⟩
    apply String.ext
    simpa using ht.symm
  · rintro ⟨rest, rfl⟩
    exact ⟨rest.toList, by simp⟩

theorem statusString_ne_resolved {σ : Type} (sdk : SDK σ) (status : Int) :
    statusString sdk status ≠ "RESOLVED" ↔ sdk.vAppStatuses status ≠ some "RESOLVED" := by
  unfold statusString
  cases h : sdk.vAppStatuses status with
  | none => simp
  | some s => simp

/-! ## The declarative-entity deleter -/

/-- C1: when the type lookup succeeds and the by-name query succeeds with more than one
entity, `deleteCapvcdRdeByName` returns the duplicate-name error, whose message contains the
given name, and its calls are the type lookup and the query only: no entity is deleted. -/
theorem deleteCapvcdRdeByName_duplicate {σ : Type} (sdk : SDK σ) (client : VCDClient)
    (rdeName : String) (w w1 w2 : σ) (t : DefinedEntityType) (rdes : List DefinedEntity)
    (hType : sdk.getRdeType client "vmware" "capvcdCluster" "1.3.0" w = (.ok t, w1))
    (hQuery : sdk.getRdesByName t rdeName w1 = (.ok rdes, w2))
    (hMany : 1 < rdes.length) :
    (deleteCapvcdRdeByName sdk client rdeName w).result =
        .returned (some (.errorf ("more then one RDE with name '" ++ rdeName ++
          "' has been found (very strange situation)")))
      ∧ (∃ e pre post, (deleteCapvcdRdeByName sdk client rdeName w).result = .returned (some e)
          ∧ e.Error = pre ++ rdeName ++ post)
      ∧ (deleteCapvcdRdeByName sdk client rdeName w).trace =
        [.getRdeType client "vmware" "capvcdCluster" "1.3.0", .getRdesByName t rdeName]
      ∧ (deleteCapvcdRdeByName sdk client rdeName w).world = w2
      ∧ ∀ rde, Event.rdeDelete rde ∉ (deleteCapvcdRdeByName sdk client rdeName w).trace := by
  have hrun : deleteCapvcdRdeByName sdk client rdeName w =
      ⟨.returned (some (.errorf ("more then one RDE with name '" ++ rdeName ++
          "' has been found (very strange situation)"))), w2,
        [.getRdeType client "vmware" "capvcdCluster" "1.3.0", .getRdesByName t rdeName]⟩ := by
    simp [deleteCapvcdRdeByName, hType, hQuery, hMany]
  rw [hrun]
  refine ⟨rfl, ⟨_, "more then one RDE with name '",
    "' has been found (very strange situation)", rfl, rfl⟩, rfl, rfl, ?_⟩
  intro rde
  simp

theorem deleteCapvcdRdeByName_duplicate_witness :
    (deleteCapvcdRdeByName (scripted twins) client0 "c1" 0).result =
        .returned (some (.errorf
          "more then one RDE with name 'c1' has been found (very strange situation)"))
      ∧ (deleteCapvcdRdeByName (scripted twins) client0 "c1" 0).trace =
        [.getRdeType client0 "vmware" "capvcdCluster" "1.3.0",
          .getRdesByName ⟨"vmware", "capvcdCluster", "1.3.0"⟩ "c1"] :=
  have h := deleteCapvcdRdeByName_duplicate (scripted twins) client0 "c1" 0 1 2
    ⟨"vmware", "capvcdCluster", "1.3.0"⟩ [⟨7, "c1"⟩, ⟨8, "c1"⟩] rfl rfl (by decide)
  ⟨h.1, h.2.2.1⟩

/-- C3: when the type lookup succeeds and the by-name query fails with `e`,
`deleteCapvcdRdeByName` returns nil if the message of `e` begins with the not-found marker
and returns `e` itself otherwise; either way its calls are the type lookup and the query
only, so nothing is deleted. -/
theorem deleteCapvcdRdeByName_query_error {σ : Type} (sdk : SDK σ) (client : VCDClient)
    (rdeName : String) (w w1 w2 : σ) (t : DefinedEntityType) (e : GoError)
    (hType : sdk.getRdeType client "vmware" "capvcdCluster" "1.3.0" w = (.ok t, w1))
    (hQuery : sdk.getRdesByName t rdeName w1 = (.error e, w2)) :
    ((∃ rest : String, e.Error = "[ENF] entity not found" ++ rest) →
        (deleteCapvcdRdeByName sdk client rdeName w).result = .returned none)
      ∧ ((¬ ∃ rest : String, e.Error = "[ENF] entity not found" ++ rest) →
        (deleteCapvcdRdeByName sdk client rdeName w).result = .returned (some e))
      ∧ (deleteCapvcdRdeByName sdk client rdeName w).trace =
        [.getRdeType client "vmware" "capvcdCluster" "1.3.0", .getRdesByName t rdeName]
      ∧ (deleteCapvcdRdeByName sdk client rdeName w).world = w2
      ∧ ∀ rde, Event.rdeDelete rde ∉ (deleteCapvcdRdeByName sdk client rdeName w).trace := by
  have hm := hasPrefix_iff e.Error enfMarker
  simp only [enfMarker] at hm
  by_cases hp : HasPrefix e.Error enfMarker = true
  · have hrun : deleteCapvcdRdeByName sdk client rdeName w =
        ⟨.returned none, w2,
          [.getRdeType client "vmware" "capvcdCluster" "1.3.0", .getRdesByName t rdeName]⟩ := by
      simp [deleteCapvcdRdeByName, hType, hQuery, hp]
    rw [hrun]
    refine ⟨fun _ => rfl, fun hn => absurd (hm.mp hp) hn, rfl, rfl, ?_⟩
    intro rde
    simp
  · have hrun : deleteCapvcdRdeByName sdk client rdeName w =
        ⟨.returned (some e), w2,
          [.getRdeType client "vmware" "capvcdCluster" "1.3.0", .getRdesByName t rdeName]⟩ := by
      simp [deleteCapvcdRdeByName, hType, hQuery, hp]
    rw [hrun]
    refine ⟨fun hy => absurd (hm.mpr hy) hp, fun _ => rfl, rfl, rfl, ?_⟩
    intro rde
    simp

theorem deleteCapvcdRdeByName_query_error_witness :
    (deleteCapvcdRdeByName (scripted markerInside) client0 "c1" 0).result =
        .returned (some (.sdk "query failed: [ENF] entity not found"))
      ∧ (deleteCapvcdRdeByName (scripted markerInside) client0 "c1" 0).trace =
        [.getRdeType client0 "vmware" "capvcdCluster" "1.3.0",
          .getRdesByName ⟨"vmware", "capvcdCluster", "1.3.0"⟩ "c1"]
      ∧ (deleteCapvcdRdeByName (scripted rdeAbsent) client0 "c1" 0).result = .returned none
      ∧ (deleteCapvcdRdeByName (scripted rdeAbsent) client0 "c1" 0).trace =
        [.getRdeType client0 "vmware" "capvcdCluster" "1.3.0",
          .getRdesByName ⟨"vmware", "capvcdCluster", "1.3.0"⟩ "c1"] :=
  have h := deleteCapvcdRdeByName_query_error (scripted markerInside) client0 "c1" 0 1 2
    ⟨"vmware", "capvcdCluster", "1.3.0"⟩ (.sdk "query failed: [ENF] entity not found") rfl rfl
  have h2 := deleteCapvcdRdeByName_query_error (scripted rdeAbsent) client0 "c1" 0 1 2
    ⟨"vmware", "capvcdCluster", "1.3.0"⟩ (.sdk "[ENF] entity not found") rfl rfl
  ⟨h.2.1 (fun hex => by
      have hp := (hasPrefix_iff _ _).mpr hex
      revert hp
      decide), h.2.2.1, h2.1 ⟨"", by decide⟩, h2.2.2.1⟩

/-! ## The vApp deleter -/

/-- C2: when the vApp is found and the status table does not render its status as
"RESOLVED" (the code may also be missing from the table, which renders as the empty
string), `deleteVAppByName` prints the observed state, returns an error, and issues neither
the vApp delete nor the task wait. -/
theorem deleteVAppByName_not_resolved {σ : Type} (sdk : SDK σ) (client : VCDClient)
    (orgName vdcName vAppName : String) (w w1 w2 w3 : σ) (org : Org) (vdc : Vdc) (vApp : VApp)
    (hOrg : sdk.getOrgByName client orgName w = (.ok org, w1))
    (hVdc : sdk.getVDCByName org vdcName false w1 = (.ok vdc, w2))
    (hVApp : sdk.getVAppByName vdc vAppName true w2 = (.ok vApp, w3))
    (hStatus : sdk.vAppStatuses vApp.status ≠ some "RESOLVED") :
    (deleteVAppByName sdk client orgName vdcName vAppName w).result =
        some (.errorf "vApp should be in RESOLVED state after HTTP500 error issue")
      ∧ (deleteVAppByName sdk client orgName vdcName vAppName w).trace =
        [.getOrgByName client orgName, .getVDCByName org vdcName false,
          .getVAppByName vdc vAppName true,
          .printf ("vApp state: '" ++ statusString sdk vApp.status ++ "'\n")]
      ∧ (deleteVAppByName sdk client orgName vdcName vAppName w).world = w3
      ∧ (∀ v, Event.vAppDelete v ∉ (deleteVAppByName sdk client orgName vdcName vAppName w).trace)
      ∧ (∀ t, Event.waitTaskCompletion t ∉
          (deleteVAppByName sdk client orgName vdcName vAppName w).trace)
      ∧ (sdk.vAppStatuses vApp.status = none → statusString sdk vApp.status = "") := by
  have hs := (statusString_ne_resolved sdk vApp.status).mpr hStatus
  have hrun : deleteVAppByName sdk client orgName vdcName vAppName w =
      ⟨some (.errorf "vApp should be in RESOLVED state after HTTP500 error issue"), w3,
        [.getOrgByName client orgName, .getVDCByName org vdcName false,
          .getVAppByName vdc vAppName true,
          .printf ("vApp state: '" ++ statusString sdk vApp.status ++ "'\n")]⟩ := by
    simp [deleteVAppByName, hOrg, hVdc, hVApp, hs]
  rw [hrun]
  refine ⟨rfl, rfl, rfl, ?_, ?_, ?_⟩
  · intro v
    simp
  · intro t
    simp
  · intro hn
    simp [statusString, hn]

theorem deleteVAppByName_not_resolved_witness :
    (deleteVAppByName (scripted unknownStatus) client0 "acme" "dc1" "c1" 0).result =
        some (.errorf "vApp should be in RESOLVED state after HTTP500 error issue")
      ∧ (deleteVAppByName (scripted unknownStatus) client0 "acme" "dc1" "c1" 0).trace =
        [.getOrgByName client0 "acme", .getVDCByName ⟨"acme"⟩ "dc1" false,
          .getVAppByName ⟨"acme", "dc1"⟩ "c1" true, .printf "vApp state: ''\n"] :=
  have h := deleteVAppByName_not_resolved (scripted unknownStatus) client0 "acme" "dc1" "c1"
    0 1 2 3 ⟨"acme"⟩ ⟨"acme", "dc1"⟩ ⟨"acme", "dc1", "c1", 42⟩ rfl rfl rfl (by decide)
  ⟨h.1, h.2.1⟩

/-- C4: when the organization and the datacenter are found and the vApp lookup fails with
an error whose message begins with the not-found marker, `deleteVAppByName` returns nil
and its events are the three lookups only: no delete, no task wait, nothing printed. -/
theorem deleteVAppByName_absent {σ : Type} (sdk : SDK σ) (client : VCDClient)
    (orgName vdcName vAppName : String) (w w1 w2 w3 : σ) (org : Org) (vdc : Vdc) (e : GoError)
    (hOrg : sdk.getOrgByName client orgName w = (.ok org, w1))
    (hVdc : sdk.getVDCByName org vdcName false w1 = (.ok vdc, w2))
    (hVApp : sdk.getVAppByName vdc vAppName true w2 = (.error e, w3))
    (hENF : ∃ rest : String, e.Error = "[ENF] entity not found" ++ rest) :
    (deleteVAppByName sdk client orgName vdcName vAppName w).result = none
      ∧ (deleteVAppByName sdk client orgName vdcName vAppName w).trace =
        [.getOrgByName client orgName, .getVDCByName org vdcName false,
          .getVAppByName vdc vAppName true]
      ∧ (deleteVAppByName sdk client orgName vdcName vAppName w).world = w3
      ∧ (∀ v, Event.vAppDelete v ∉ (deleteVAppByName sdk client orgName vdcName vAppName w).trace)
      ∧ (∀ t, Event.waitTaskCompletion t ∉
          (deleteVAppByName sdk client orgName vdcName vAppName w).trace)
      ∧ (∀ out, Event.printf out ∉
          (deleteVAppByName sdk client orgName vdcName vAppName w).trace) := by
  have hp : HasPrefix e.Error enfMarker = true := (hasPrefix_iff _ _).mpr hENF
  have hrun : deleteVAppByName sdk client orgName vdcName vAppName w =
      ⟨none, w3, [.getOrgByName client orgName, .getVDCByName org vdcName false,
          .getVAppByName vdc vAppName true]⟩ := by
    simp [deleteVAppByName, hOrg, hVdc, hVApp, hp]
  rw [hrun]
  refine ⟨rfl, rfl, rfl, ?_, ?_, ?_⟩ <;> intro x <;> simp

theorem deleteVAppByName_absent_witness :
    (deleteVAppByName (scripted vAppAbsent) client0 "acme" "dc1" "c1" 0).result = none
      ∧ (deleteVAppByName (scripted vAppAbsent) client0 "acme" "dc1" "c1" 0).trace =
        [.getOrgByName client0 "acme", .getVDCByName ⟨"acme"⟩ "dc1" false,
          .getVAppByName ⟨"acme", "dc1"⟩ "c1" true] :=
  have h := deleteVAppByName_absent (scripted vAppAbsent) client0 "acme" "dc1" "c1"
    0 1 2 3 ⟨"acme"⟩ ⟨"acme", "dc1"⟩ (.sdk "[ENF] entity not found: c1") rfl rfl rfl
    ⟨": c1", by decide⟩
  ⟨h.1, h.2.1⟩

theorem stateLine_ne_confirmation (n : String) :
    "vApp state: 'RESOLVED'\n" ≠ "vApp '" ++ n ++ "' successfully deleted.\n" := by
  intro h
  have h2 := congrArg String.data h
  simp at h2

theorem deletingLine_ne_confirmation (n : String) :
    "Deleting vApp '" ++ n ++ "'...\n" ≠ "vApp '" ++ n ++ "' successfully deleted.\n" := by
  intro h
  have h2 := congrArg String.data h
  simp at h2

theorem startFailure_ne_completionFailure (m1 m2 : String) :
    "error deleting vApp: " ++ m1 ≠ "error waiting for delete task completion: " ++ m2 := by
  intro h
  have h2 := congrArg String.data h
  simp at h2

theorem statusString_resolved {σ : Type} (sdk : SDK σ) (status : Int)
    (h : sdk.vAppStatuses status = some "RESOLVED") : statusString sdk status = "RESOLVED" := by
  simp [statusString, h]

/-- C8: for a found vApp rendered as "RESOLVED": if the delete call fails with `e` the
result is the error "error deleting vApp: " followed by the message of `e` and no task is
waited on; if the delete call succeeds and the task wait fails with `e` the result is the
error "error waiting for delete task completion: " followed by the message of `e`; the two
messages differ whatever the underlying errors are; the success line is printed in neither
case. -/
theorem deleteVAppByName_delete_failures {σ : Type} (sdk : SDK σ) (client : VCDClient)
    (orgName vdcName vAppName : String) (w w1 w2 w3 : σ) (org : Org) (vdc : Vdc) (vApp : VApp)
    (hOrg : sdk.getOrgByName client orgName w = (.ok org, w1))
    (hVdc : sdk.getVDCByName org vdcName false w1 = (.ok vdc, w2))
    (hVApp : sdk.getVAppByName vdc vAppName true w2 = (.ok vApp, w3))
    (hStatus : sdk.vAppStatuses vApp.status = some "RESOLVED") :
    (∀ (e : GoError) (w4 : σ), sdk.vAppDelete vApp w3 = (.error e, w4) →
        (deleteVAppByName sdk client orgName vdcName vAppName w).result =
            some (.errorf ("error deleting vApp: " ++ e.Error))
          ∧ (deleteVAppByName sdk client orgName vdcName vAppName w).trace =
            [.getOrgByName client orgName, .getVDCByName org vdcName false,
              .getVAppByName vdc vAppName true, .printf "vApp state: 'RESOLVED'\n",
              .printf ("Deleting vApp '" ++ vAppName ++ "'...\n"), .vAppDelete vApp]
          ∧ (∀ t, Event.waitTaskCompletion t ∉
              (deleteVAppByName sdk client orgName vdcName vAppName w).trace)
          ∧ Event.printf ("vApp '" ++ vAppName ++ "' successfully deleted.\n") ∉
              (deleteVAppByName sdk client orgName vdcName vAppName w).trace)
      ∧ (∀ (task : Task) (e : GoError) (w4 w5 : σ), sdk.vAppDelete vApp w3 = (.ok task, w4) →
          sdk.waitTaskCompletion task w4 = (some e, w5) →
        (deleteVAppByName sdk client orgName vdcName vAppName w).result =
            some (.errorf ("error waiting for delete task completion: " ++ e.Error))
          ∧ (deleteVAppByName sdk client orgName vdcName vAppName w).trace =
            [.getOrgByName client orgName, .getVDCByName org vdcName false,
              .getVAppByName vdc vAppName true, .printf "vApp state: 'RESOLVED'\n",
              .printf ("Deleting vApp '" ++ vAppName ++ "'...\n"), .vAppDelete vApp,
              .waitTaskCompletion task]
          ∧ Event.printf ("vApp '" ++ vAppName ++ "' successfully deleted.\n") ∉
              (deleteVAppByName sdk client orgName vdcName vAppName w).trace)
      ∧ ∀ e1 e2 : GoError,
          (GoError.errorf ("error deleting vApp: " ++ e1.Error)).Error ≠
            (GoError.errorf ("error waiting for delete task completion: " ++ e2.Error)).Error := by
  have hs := statusString_resolved sdk vApp.status hStatus
  refine ⟨?_, ?_, ?_⟩
  · intro e w4 hDel
    have hrun : deleteVAppByName sdk client orgName vdcName vAppName w =
        ⟨some (.errorf ("error deleting vApp: " ++ e.Error)), w4,
          [.getOrgByName client orgName, .getVDCByName org vdcName false,
            .getVAppByName vdc vAppName true, .printf "vApp state: 'RESOLVED'\n",
            .printf ("Deleting vApp '" ++ vAppName ++ "'...\n"), .vAppDelete vApp]⟩ := by
      simp [deleteVAppByName, hOrg, hVdc, hVApp, hs, hDel]
    rw [hrun]
    refine ⟨rfl, rfl, ?_, ?_⟩
    · intro t
      simp
    · simp only [List.mem_cons, Event.printf.injEq, List.mem_singleton, not_or]
      simp only [reduceCtorEq, not_false_eq_true, true_and, and_true, List.not_mem_nil]
      exact ⟨fun h => stateLine_ne_confirmation vAppName h.symm,
        fun h => deletingLine_ne_confirmation vAppName h.symm⟩
  · intro task e w4 w5 hDel hWait
    have hrun : deleteVAppByName sdk client orgName vdcName vAppName w =
        ⟨some (.errorf ("error waiting for delete task completion: " ++ e.Error)), w5,
          [.getOrgByName client orgName, .getVDCByName org vdcName false,
            .getVAppByName vdc vAppName true, .printf "vApp state: 'RESOLVED'\n",
            .printf ("Deleting vApp '" ++ vAppName ++ "'...\n"), .vAppDelete vApp,
            .waitTaskCompletion task]⟩ := by
      simp [deleteVAppByName, hOrg, hVdc, hVApp, hs, hDel, hWait]
    rw [hrun]
    refine ⟨rfl, rfl, ?_⟩
    simp only [List.mem_cons, Event.printf.injEq, List.mem_singleton, not_or]
    simp only [reduceCtorEq, not_false_eq_true, true_and, and_true, List.not_mem_nil]
    exact ⟨fun h => stateLine_ne_confirmation vAppName h.symm,
      fun h => deletingLine_ne_confirmation vAppName h.symm⟩
  · intro e1 e2
    exact startFailure_ne_completionFailure _ _

theorem deleteVAppByName_delete_failures_witness :
    (deleteVAppByName (scripted deleteRejected) client0 "acme" "dc1" "c1" 0).result =
        some (.errorf "error deleting vApp: 409 busy")
      ∧ (deleteVAppByName (scripted deleteRejected) client0 "acme" "dc1" "c1" 0).trace =
        [.getOrgByName client0 "acme", .getVDCByName ⟨"acme"⟩ "dc1" false,
          .getVAppByName ⟨"acme", "dc1"⟩ "c1" true, .printf "vApp state: 'RESOLVED'\n",
          .printf "Deleting vApp 'c1'...\n", .vAppDelete ⟨"acme", "dc1", "c1", 1⟩]
      ∧ (deleteVAppByName (scripted taskFailed) client0 "acme" "dc1" "c1" 0).result =
        some (.errorf "error waiting for delete task completion: task error") :=
  have h := (deleteVAppByName_delete_failures (scripted deleteRejected) client0 "acme" "dc1"
    "c1" 0 1 2 3 ⟨"acme"⟩ ⟨"acme", "dc1"⟩ ⟨"acme", "dc1", "c1", 1⟩ rfl rfl rfl rfl).1
    (.sdk "409 busy") 4 rfl
  have h2 := (deleteVAppByName_delete_failures (scripted taskFailed) client0 "acme" "dc1"
    "c1" 0 1 2 3 ⟨"acme"⟩ ⟨"acme", "dc1"⟩ ⟨"acme", "dc1", "c1", 1⟩ rfl rfl rfl rfl).2.1
    ⟨"task/1"⟩ (.sdk "task error") 4 5 rfl rfl
  ⟨h.1, h.2.1, h2.1⟩

/-- C10: after a successful type lookup and a successful by-name query, the index
expression `rdes[0]` is reached exactly when the list has at most one element.  If the
query gave at least one entity the list is then a singleton, the access is in bounds, and
the element read is the one passed to the delete call.  There is no guard for the empty
list: if the query gave no entity the function panics at the index expression. -/
theorem deleteCapvcdRdeByName_index {σ : Type} (sdk : SDK σ) (client : VCDClient)
    (rdeName : String) (w w1 w2 : σ) (t : DefinedEntityType) (rdes : List DefinedEntity)
    (hType : sdk.getRdeType client "vmware" "capvcdCluster" "1.3.0" w = (.ok t, w1))
    (hQuery : sdk.getRdesByName t rdeName w1 = (.ok rdes, w2)) :
    (rdes ≠ [] → ¬ 1 < rdes.length →
        ∃ rde, rdes = [rde] ∧ rdes[0]? = some rde
          ∧ (deleteCapvcdRdeByName sdk client rdeName w).trace =
            [.getRdeType client "vmware" "capvcdCluster" "1.3.0", .getRdesByName t rdeName,
              .rdeDelete rde]
          ∧ ∃ err, (deleteCapvcdRdeByName sdk client rdeName w).result = .returned err)
      ∧ (rdes ≠ [] → ∀ msg, (deleteCapvcdRdeByName sdk client rdeName w).result ≠ .panicked msg)
      ∧ (rdes = [] →
        (deleteCapvcdRdeByName sdk client rdeName w).result =
            .panicked "runtime error: index out of range [0] with length 0"
          ∧ ∀ rde, Event.rdeDelete rde ∉ (deleteCapvcdRdeByName sdk client rdeName w).trace) := by
  have hsingle : ∀ rde : DefinedEntity, rdes = [rde] →
      (deleteCapvcdRdeByName sdk client rdeName w).trace =
          [.getRdeType client "vmware" "capvcdCluster" "1.3.0", .getRdesByName t rdeName,
            .rdeDelete rde]
        ∧ ∃ err, (deleteCapvcdRdeByName sdk client rdeName w).result = .returned err := by
    intro rde hr
    subst hr
    cases hDel : sdk.rdeDelete rde w2 with
    | mk r w3 =>
      cases r with
      | none => simp [deleteCapvcdRdeByName, hType, hQuery, hDel]
      | some err => simp [deleteCapvcdRdeByName, hType, hQuery, hDel]
  refine ⟨?_, ?_, ?_⟩
  · intro hne hlen
    match rdes, hne, hlen, hsingle with
    | [], hne, _, _ => exact absurd rfl hne
    | [rde], _, _, hs => exact ⟨rde, rfl, rfl, hs rde rfl⟩
    | _ :: _ :: _, _, hlen, _ => exact absurd (by simp) hlen
  · intro hne msg
    match rdes, hne, hsingle, hQuery with
    | [], hne, _, _ => exact absurd rfl hne
    | [rde], _, hs, _ =>
      obtain ⟨err, herr⟩ := (hs rde rfl).2
      rw [herr]
      simp
    | a :: b :: l, _, _, hQ =>
      simp [deleteCapvcdRdeByName, hType, hQ]
  · intro hnil
    subst hnil
    constructor
    · simp [deleteCapvcdRdeByName, hType, hQuery]
    · intro rde
      simp [deleteCapvcdRdeByName, hType, hQuery]

theorem deleteCapvcdRdeByName_index_witness :
    (deleteCapvcdRdeByName (scripted happy) client0 "c1" 0).trace =
        [.getRdeType client0 "vmware" "capvcdCluster" "1.3.0",
          .getRdesByName ⟨"vmware", "capvcdCluster", "1.3.0"⟩ "c1", .rdeDelete ⟨7, "c1"⟩]
      ∧ (deleteCapvcdRdeByName (scripted noEntity) client0 "c1" 0).result =
        .panicked "runtime error: index out of range [0] with length 0" :=
  have h := (deleteCapvcdRdeByName_index (scripted happy) client0 "c1" 0 1 2
    ⟨"vmware", "capvcdCluster", "1.3.0"⟩ [⟨7, "c1"⟩] rfl rfl).1 (by decide) (by decide)
  have h2 := (deleteCapvcdRdeByName_index (scripted noEntity) client0 "c1" 0 1 2
    ⟨"vmware", "capvcdCluster", "1.3.0"⟩ [] rfl rfl).2.2 rfl
  ⟨by
    obtain ⟨rde, hr, _, ht, _⟩ := h
    cases hr
    exact ht, h2.1⟩

/-! ## Error propagation -/

theorem append_self_eq (stage m : String) (h : m = stage ++ m) : stage = "" := by
  have h2 := congrArg String.length h
  rw [String.length_append] at h2
  have h3 : stage.length = 0 := by omega
  exact String.ext (List.length_eq_zero.mp h3)

/-- C7 (as stated, refuted): the by-name query of the scripted run fails with "boom" and
`deleteCapvcdRdeByName` hands that very error to the entry point, with no stage text in
front of its message. -/
theorem query_error_returned_bare :
    (scripted queryBoom).getRdesByName ⟨"vmware", "capvcdCluster", "1.3.0"⟩ "c1" 1 =
        (.error (.sdk "boom"), 2)
      ∧ (deleteCapvcdRdeByName (scripted queryBoom) client0 "c1" 0).result =
        .returned (some (.sdk "boom"))
      ∧ ¬ StageWrapped (.sdk "boom") (.sdk "boom") := by
  refine ⟨rfl, by decide, ?_⟩
  rintro ⟨stage, hne, h⟩
  exact hne (append_self_eq stage _ h)

/-- C7 (amended): a failure of `GetOrgByName`, `GetVDCByName`, `vApp.Delete`,
`WaitTaskCompletion`, `GetRdeType` or the entity `Delete` is returned as a fresh error whose
message is the stage text followed by the underlying message; a failure of
`url.ParseRequestURI` or `SetApiToken`, and a failure of `GetRdesByName` or `GetVAppByName`
whose message does not begin with the not-found marker, is returned as the underlying
error itself. -/
theorem collaborator_error_propagation {σ : Type} (sdk : SDK σ) (client : VCDClient) :
    (∀ orgName vdcName vAppName w w1 e,
        sdk.getOrgByName client orgName w = (.error e, w1) →
        (deleteVAppByName sdk client orgName vdcName vAppName w).result =
          some (.errorf ("error getting organization: " ++ e.Error)))
      ∧ (∀ orgName vdcName vAppName w w1 w2 org e,
        sdk.getOrgByName client orgName w = (.ok org, w1) →
        sdk.getVDCByName org vdcName false w1 = (.error e, w2) →
        (deleteVAppByName sdk client orgName vdcName vAppName w).result =
          some (.errorf ("error getting VDC: " ++ e.Error)))
      ∧ (∀ orgName vdcName vAppName w w1 w2 w3 w4 org vdc vApp e,
        sdk.getOrgByName client orgName w = (.ok org, w1) →
        sdk.getVDCByName org vdcName false w1 = (.ok vdc, w2) →
        sdk.getVAppByName vdc vAppName true w2 = (.ok vApp, w3) →
        sdk.vAppStatuses vApp.status = some "RESOLVED" →
        sdk.vAppDelete vApp w3 = (.error e, w4) →
        (deleteVAppByName sdk client orgName vdcName vAppName w).result =
          some (.errorf ("error deleting vApp: " ++ e.Error)))
      ∧ (∀ orgName vdcName vAppName w w1 w2 w3 w4 w5 org vdc vApp task e,
        sdk.getOrgByName client orgName w = (.ok org, w1) →
        sdk.getVDCByName org vdcName false w1 = (.ok vdc, w2) →
        sdk.getVAppByName vdc vAppName true w2 = (.ok vApp, w3) →
        sdk.vAppStatuses vApp.status = some "RESOLVED" →
        sdk.vAppDelete vApp w3 = (.ok task, w4) →
        sdk.waitTaskCompletion task w4 = (some e, w5) →
        (deleteVAppByName sdk client orgName vdcName vAppName w).result =
          some (.errorf ("error waiting for delete task completion: " ++ e.Error)))
      ∧ (∀ rdeName w w1 e,
        sdk.getRdeType client "vmware" "capvcdCluster" "1.3.0" w = (.error e, w1) →
        (deleteCapvcdRdeByName sdk client rdeName w).result =
          .returned (some (.errorf
            ("unable to get CAPVCD Cluster Rde Type v1.3.0: " ++ e.Error))))
      ∧ (∀ rdeName w w1 w2 w3 t rde e,
        sdk.getRdeType client "vmware" "capvcdCluster" "1.3.0" w = (.ok t, w1) →
        sdk.getRdesByName t rdeName w1 = (.ok [rde], w2) →
        sdk.rdeDelete rde w2 = (some e, w3) →
        (deleteCapvcdRdeByName sdk client rdeName w).result =
          .returned (some (.errorf
            ("error deleting CAPVCD RDE with name " ++ rdeName ++ ": " ++ e.Error))))
      ∧ (∀ vcdUrl orgName apiToken w e,
        sdk.parseRequestURI (vcdUrl ++ "/api") = .error e →
        (initVCDClient sdk vcdUrl orgName apiToken w).result = .error e)
      ∧ (∀ vcdUrl orgName apiToken w w1 w2 url c e,
        sdk.parseRequestURI (vcdUrl ++ "/api") = .ok url →
        sdk.newVCDClient url false w = (c, w1) →
        sdk.setApiToken c orgName apiToken w1 = (some e, w2) →
        (initVCDClient sdk vcdUrl orgName apiToken w).result = .error e)
      ∧ (∀ rdeName w w1 w2 t e,
        sdk.getRdeType client "vmware" "capvcdCluster" "1.3.0" w = (.ok t, w1) →
        sdk.getRdesByName t rdeName w1 = (.error e, w2) →
        (¬ ∃ rest : String, e.Error = "[ENF] entity not found" ++ rest) →
        (deleteCapvcdRdeByName sdk client rdeName w).result = .returned (some e))
      ∧ (∀ orgName vdcName vAppName w w1 w2 w3 org vdc e,
        sdk.getOrgByName client orgName w = (.ok org, w1) →
        sdk.getVDCByName org vdcName false w1 = (.ok vdc, w2) →
        sdk.getVAppByName vdc vAppName true w2 = (.error e, w3) →
        (¬ ∃ rest : String, e.Error = "[ENF] entity not found" ++ rest) →
        (deleteVAppByName sdk client orgName vdcName vAppName w).result = some e) := by
  have hm : ∀ e : GoError, (¬ ∃ rest : String, e.Error = "[ENF] entity not found" ++ rest) →
      HasPrefix e.Error enfMarker = false := by
    intro e hn
    cases hp : HasPrefix e.Error enfMarker with
    | false => rfl
    | true => exact absurd ((hasPrefix_iff _ _).mp hp) hn
  refine ⟨?_, ?_, ?_, ?_, ?_, ?_, ?_, ?_, ?_, ?_⟩
  · intro orgName vdcName vAppName w w1 e h1
    simp [deleteVAppByName, h1]
  · intro orgName vdcName vAppName w w1 w2 org e h1 h2
    simp [deleteVAppByName, h1, h2]
  · intro orgName vdcName vAppName w w1 w2 w3 w4 org vdc vApp e h1 h2 h3 hs h4
    simp [deleteVAppByName, h1, h2, h3, statusString_resolved sdk _ hs, h4]
  · intro orgName vdcName vAppName w w1 w2 w3 w4 w5 org vdc vApp task e h1 h2 h3 hs h4 h5
    simp [deleteVAppByName, h1, h2, h3, statusString_resolved sdk _ hs, h4, h5]
  · intro rdeName w w1 e h1
    simp [deleteCapvcdRdeByName, h1]
  · intro rdeName w w1 w2 w3 t rde e h1 h2 h3
    simp [deleteCapvcdRdeByName, h1, h2, h3]
  · intro vcdUrl orgName apiToken w e h1
    simp [initVCDClient, h1]
  · intro vcdUrl orgName apiToken w w1 w2 url c e h1 h2 h3
    simp [initVCDClient, h1, h2, h3]
  · intro rdeName w w1 w2 t e h1 h2 hn
    simp [deleteCapvcdRdeByName, h1, h2, hm e hn]
  · intro orgName vdcName vAppName w w1 w2 w3 org vdc e h1 h2 h3 hn
    simp [deleteVAppByName, h1, h2, h3, hm e hn]

theorem collaborator_error_propagation_witness :
    (deleteVAppByName (scripted orgMissing) client0 "acme" "dc1" "c1" 0).result =
        some (.errorf "error getting organization: no such org")
      ∧ (deleteCapvcdRdeByName (scripted queryBoom) client0 "c1" 0).result =
        .returned (some (.sdk "boom")) :=
  ⟨(collaborator_error_propagation (scripted orgMissing) client0).1
      "acme" "dc1" "c1" 0 1 (.sdk "no such org") rfl,
    (collaborator_error_propagation (scripted queryBoom) client0).2.2.2.2.2.2.2.2.1
      "c1" 0 1 2 ⟨"vmware", "capvcdCluster", "1.3.0"⟩ (.sdk "boom") rfl rfl
      (fun hex => by
        have hp := (hasPrefix_iff _ _).mpr hex
        revert hp
        decide)⟩

/-! ## The entry point -/

theorem initVCDClient_trace_stage {σ : Type} (sdk : SDK σ) (vcdUrl orgName apiToken : String)
    (w : σ) : ∀ ev ∈ (initVCDClient sdk vcdUrl orgName apiToken w).trace,
      ev.isRdeStage = false ∧ ev.isVAppStage = false := by
  unfold initVCDClient
  split
  · simp [Event.isRdeStage, Event.isVAppStage]
  · split
    split <;> simp [Event.isRdeStage, Event.isVAppStage]

theorem deleteCapvcdRdeByName_trace_stage {σ : Type} (sdk : SDK σ) (client : VCDClient)
    (rdeName : String) (w : σ) :
    ∀ ev ∈ (deleteCapvcdRdeByName sdk client rdeName w).trace, ev.isVAppStage = false := by
  unfold deleteCapvcdRdeByName
  split
  · simp [Event.isVAppStage]
  · split
    · split <;> simp [Event.isVAppStage]
    · split
      · simp [Event.isVAppStage]
      · split
        · simp [Event.isVAppStage]
        · split <;> simp [Event.isVAppStage]

/-- C5: `main` runs session establishment, then the RDE deleter, then the vApp deleter,
each on the world left by the step before, and stops at the first error.  If session
establishment fails the process exits with status 1 and the trace is that of
`initVCDClient` followed by the fatal log line: no deleter event occurs.  If the RDE deleter
returns an error (or panics) the process exits non-zero and the trace holds no
organization, datacenter or vApp event.  Otherwise the trace is the three traces in order. -/
theorem main_stops_at_first_error {σ : Type} (sdk : SDK σ)
    (vcdUrl orgName vdcName apiToken name : String) (w : σ) :
    (∀ e, (initVCDClient sdk vcdUrl orgName apiToken w).result = .error e →
        (main sdk vcdUrl orgName vdcName apiToken name w).result = 1
          ∧ (main sdk vcdUrl orgName vdcName apiToken name w).trace =
            (initVCDClient sdk vcdUrl orgName apiToken w).trace ++
              [.fatalf ("Error initializing vCloud Director client: " ++ e.Error)]
          ∧ (main sdk vcdUrl orgName vdcName apiToken name w).world =
            (initVCDClient sdk vcdUrl orgName apiToken w).world
          ∧ ∀ ev ∈ (main sdk vcdUrl orgName vdcName apiToken name w).trace,
              ev.isRdeStage = false ∧ ev.isVAppStage = false)
      ∧ (∀ c, (initVCDClient sdk vcdUrl orgName apiToken w).result = .ok c →
        (∀ e, (deleteCapvcdRdeByName sdk c name
              (initVCDClient sdk vcdUrl orgName apiToken w).world).result
            = .returned (some e) →
          (main sdk vcdUrl orgName vdcName apiToken name w).result = 1
            ∧ (main sdk vcdUrl orgName vdcName apiToken name w).trace =
              (initVCDClient sdk vcdUrl orgName apiToken w).trace ++
                (deleteCapvcdRdeByName sdk c name
                  (initVCDClient sdk vcdUrl orgName apiToken w).world).trace ++
                [.fatalf ("Error deleting CAPVCD RDE: " ++ e.Error)]
            ∧ ∀ ev ∈ (main sdk vcdUrl orgName vdcName apiToken name w).trace,
                ev.isVAppStage = false)
        ∧ (∀ msg, (deleteCapvcdRdeByName sdk c name
              (initVCDClient sdk vcdUrl orgName apiToken w).world).result
            = .panicked msg →
          (main sdk vcdUrl orgName vdcName apiToken name w).result = 2
            ∧ ∀ ev ∈ (main sdk vcdUrl orgName vdcName apiToken name w).trace,
                ev.isVAppStage = false)
        ∧ ((deleteCapvcdRdeByName sdk c name
              (initVCDClient sdk vcdUrl orgName apiToken w).world).result
            = .returned none →
          ∃ tail, (main sdk vcdUrl orgName vdcName apiToken name w).trace =
              (initVCDClient sdk vcdUrl orgName apiToken w).trace ++
                (deleteCapvcdRdeByName sdk c name
                  (initVCDClient sdk vcdUrl orgName apiToken w).world).trace ++
                (deleteVAppByName sdk c orgName vdcName name
                  (deleteCapvcdRdeByName sdk c name
                    (initVCDClient sdk vcdUrl orgName apiToken w).world).world).trace ++ tail
            ∧ ((deleteVAppByName sdk c orgName vdcName name
                  (deleteCapvcdRdeByName sdk c name
                    (initVCDClient sdk vcdUrl orgName apiToken w).world).world).result = none →
                tail = [] ∧ (main sdk vcdUrl orgName vdcName apiToken name w).result = 0)
            ∧ ∀ e, (deleteVAppByName sdk c orgName vdcName name
                  (deleteCapvcdRdeByName sdk c name
                    (initVCDClient sdk vcdUrl orgName apiToken w).world).world).result = some e →
                tail = [.fatalf ("Error deleting vApp: " ++ e.Error)]
                  ∧ (main sdk vcdUrl orgName vdcName apiToken name w).result = 1)) := by
  have hInitStage := initVCDClient_trace_stage sdk vcdUrl orgName apiToken w
  constructor
  · intro e he
    rcases hi : initVCDClient sdk vcdUrl orgName apiToken w with ⟨r1, w1, t1⟩
    rw [hi] at he hInitStage
    simp only at he hInitStage
    subst he
    have hmain : main sdk vcdUrl orgName vdcName apiToken name w =
        ⟨1, w1, t1 ++ [.fatalf ("Error initializing vCloud Director client: " ++ e.Error)]⟩ := by
      simp [main, hi]
    rw [hmain]
    refine ⟨rfl, rfl, rfl, ?_⟩
    intro ev hev
    rcases List.mem_append.mp hev with h | h
    · exact hInitStage ev h
    · simp only [List.mem_singleton] at h
      subst h
      exact ⟨rfl, rfl⟩
  · intro c hc
    rcases hi : initVCDClient sdk vcdUrl orgName apiToken w with ⟨r1, w1, t1⟩
    rw [hi] at hc hInitStage
    simp only at hc hInitStage
    subst hc
    have hRdeStage := deleteCapvcdRdeByName_trace_stage sdk c name w1
    rcases hr : deleteCapvcdRdeByName sdk c name w1 with ⟨r2, w2, t2⟩
    rw [hr] at hRdeStage
    simp only at hRdeStage
    simp only
    refine ⟨?_, ?_, ?_⟩
    · intro e he
      subst he
      have hmain : main sdk vcdUrl orgName vdcName apiToken name w =
          ⟨1, w2, t1 ++ t2 ++ [.fatalf ("Error deleting CAPVCD RDE: " ++ e.Error)]⟩ := by
        simp [main, hi, hr]
      rw [hmain]
      refine ⟨rfl, rfl, ?_⟩
      intro ev hev
      rcases List.mem_append.mp hev with h | h
      · rcases List.mem_append.mp h with h | h
        · exact (hInitStage ev h).2
        · exact hRdeStage ev h
      · simp only [List.mem_singleton] at h
        subst h
        rfl
    · intro msg he
      subst he
      have hmain : main sdk vcdUrl orgName vdcName apiToken name w =
          ⟨2, w2, t1 ++ t2 ++ [.goPanic msg]⟩ := by
        simp [main, hi, hr]
      rw [hmain]
      refine ⟨rfl, ?_⟩
      intro ev hev
      rcases List.mem_append.mp hev with h | h
      · rcases List.mem_append.mp h with h | h
        · exact (hInitStage ev h).2
        · exact hRdeStage ev h
      · simp only [List.mem_singleton] at h
        subst h
        rfl
    · intro he
      subst he
      rcases hv : deleteVAppByName sdk c orgName vdcName name w2 with ⟨r3, w3, t3⟩
      cases r3 with
      | none =>
        refine ⟨[], ?_, ?_, ?_⟩
        · simp [main, hi, hr, hv]
        · intro _
          simp [main, hi, hr, hv]
        · intro e he
          simp at he
      | some err =>
        refine ⟨[.fatalf ("Error deleting vApp: " ++ err.Error)], ?_, ?_, ?_⟩
        · simp [main, hi, hr, hv]
        · intro he
          simp at he
        · intro e he
          simp only [Option.some.injEq] at he
          subst he
          simp [main, hi, hr, hv]

theorem main_stops_at_first_error_witness :
    (main (scripted twins) "https://vcd.example" "acme" "dc1" "tok" "c1" 0).result = 1
      ∧ (main (scripted twins) "https://vcd.example" "acme" "dc1" "tok" "c1" 0).trace =
        [.setEnableLogging true, .parseRequestURI "https://vcd.example/api",
          .newVCDClient "https://vcd.example/api" false, .setApiToken client0 "acme" "tok",
          .getRdeType client0 "vmware" "capvcdCluster" "1.3.0",
          .getRdesByName ⟨"vmware", "capvcdCluster", "1.3.0"⟩ "c1",
          .fatalf ("Error deleting CAPVCD RDE: " ++
            "more then one RDE with name 'c1' has been found (very strange situation)")]
      ∧ (main (scripted badToken) "https://vcd.example" "acme" "dc1" "tok" "c1" 0).result = 1
      ∧ (main (scripted badToken) "https://vcd.example" "acme" "dc1" "tok" "c1" 0).trace =
        [.setEnableLogging true, .parseRequestURI "https://vcd.example/api",
          .newVCDClient "https://vcd.example/api" false, .setApiToken client0 "acme" "tok",
          .fatalf "Error initializing vCloud Director client: 401 unauthorized"] :=
  have h := ((main_stops_at_first_error (scripted twins) "https://vcd.example" "acme" "dc1"
    "tok" "c1" 0).2 client0 rfl).1
    (.errorf "more then one RDE with name 'c1' has been found (very strange situation)") rfl
  have h2 := (main_stops_at_first_error (scripted badToken) "https://vcd.example" "acme" "dc1"
    "tok" "c1" 0).1 (.sdk "401 unauthorized") rfl
  ⟨h.1, h.2.1, h2.1, h2.2.1⟩

/-! ## Scenario A: everything succeeds -/

/-- C9 (as stated, refuted): in the scripted run where one entity matches, the vApp is
RESOLVED and every call succeeds, the process exits with status 0 and writes three lines,
not two: the observed state, the announcement of the deletion, and the confirmation.  All
three come from the vApp deleter; the entity deleter writes nothing. -/
theorem scenarioA_prints_three_lines :
    (main (scripted happy) "https://vcd.example" "acme" "dc1" "tok" "c1" 0).result = 0
      ∧ printed (main (scripted happy) "https://vcd.example" "acme" "dc1" "tok" "c1" 0).trace =
        ["vApp state: 'RESOLVED'\n", "Deleting vApp 'c1'...\n",
          "vApp 'c1' successfully deleted.\n"]
      ∧ (printed
          (main (scripted happy) "https://vcd.example" "acme" "dc1" "tok" "c1" 0).trace).length
        ≠ 2
      ∧ printed (deleteCapvcdRdeByName (scripted happy) client0 "c1" 2).trace = [] := by
  refine ⟨by decide, by decide, by decide, by decide⟩

/-- C9 (amended): when every call succeeds, exactly one entity matches the name and the
vApp is rendered as "RESOLVED", `main` exits with status 0; its state-changing steps are
one entity delete, then one vApp delete, then one task wait; and it writes three lines (the
observed state, the announcement of the deletion and the confirmation), all from the vApp
deleter, the last of which names the deleted vApp. -/
theorem main_scenarioA {σ : Type} (sdk : SDK σ)
    (vcdUrl orgName vdcName apiToken name url : String) (w w1 w2 w3 w4 w5 w6 w7 w8 w9 w10 : σ)
    (c : VCDClient) (t : DefinedEntityType) (rde : DefinedEntity) (org : Org) (vdc : Vdc)
    (vApp : VApp) (task : Task)
    (hParse : sdk.parseRequestURI (vcdUrl ++ "/api") = .ok url)
    (hClient : sdk.newVCDClient url false w = (c, w1))
    (hToken : sdk.setApiToken c orgName apiToken w1 = (none, w2))
    (hType : sdk.getRdeType c "vmware" "capvcdCluster" "1.3.0" w2 = (.ok t, w3))
    (hQuery : sdk.getRdesByName t name w3 = (.ok [rde], w4))
    (hRdeDelete : sdk.rdeDelete rde w4 = (none, w5))
    (hOrg : sdk.getOrgByName c orgName w5 = (.ok org, w6))
    (hVdc : sdk.getVDCByName org vdcName false w6 = (.ok vdc, w7))
    (hVApp : sdk.getVAppByName vdc name true w7 = (.ok vApp, w8))
    (hStatus : sdk.vAppStatuses vApp.status = some "RESOLVED")
    (hDelete : sdk.vAppDelete vApp w8 = (.ok task, w9))
    (hWait : sdk.waitTaskCompletion task w9 = (none, w10)) :
    (main sdk vcdUrl orgName vdcName apiToken name w).result = 0
      ∧ (main sdk vcdUrl orgName vdcName apiToken name w).world = w10
      ∧ (deleteCapvcdRdeByName sdk c name w2).result = .returned none
      ∧ (deleteVAppByName sdk c orgName vdcName name w5).result = none
      ∧ (main sdk vcdUrl orgName vdcName apiToken name w).trace =
        [.setEnableLogging true, .parseRequestURI (vcdUrl ++ "/api"), .newVCDClient url false,
          .setApiToken c orgName apiToken,
          .getRdeType c "vmware" "capvcdCluster" "1.3.0", .getRdesByName t name,
          .rdeDelete rde,
          .getOrgByName c orgName, .getVDCByName org vdcName false,
          .getVAppByName vdc name true, .printf "vApp state: 'RESOLVED'\n",
          .printf ("Deleting vApp '" ++ name ++ "'...\n"), .vAppDelete vApp,
          .waitTaskCompletion task, .printf ("vApp '" ++ name ++ "' successfully deleted.\n")]
      ∧ (main sdk vcdUrl orgName vdcName apiToken name w).trace.filter Event.isDeleteStep =
        [.rdeDelete rde, .vAppDelete vApp, .waitTaskCompletion task]
      ∧ printed (main sdk vcdUrl orgName vdcName apiToken name w).trace =
        ["vApp state: 'RESOLVED'\n", "Deleting vApp '" ++ name ++ "'...\n",
          "vApp '" ++ name ++ "' successfully deleted.\n"]
      ∧ (printed (main sdk vcdUrl orgName vdcName apiToken name w).trace).getLast? =
        some ("vApp '" ++ name ++ "' successfully deleted.\n")
      ∧ printed (deleteCapvcdRdeByName sdk c name w2).trace = [] := by
  have hs := statusString_resolved sdk vApp.status hStatus
  have hinit : initVCDClient sdk vcdUrl orgName apiToken w =
      ⟨.ok c, w2, [.setEnableLogging true, .parseRequestURI (vcdUrl ++ "/api"),
        .newVCDClient url false, .setApiToken c orgName apiToken]⟩ := by
    simp [initVCDClient, hParse, hClient, hToken]
  have hrde : deleteCapvcdRdeByName sdk c name w2 =
      ⟨.returned none, w5, [.getRdeType c "vmware" "capvcdCluster" "1.3.0",
        .getRdesByName t name, .rdeDelete rde]⟩ := by
    simp [deleteCapvcdRdeByName, hType, hQuery, hRdeDelete]
  have hvapp : deleteVAppByName sdk c orgName vdcName name w5 =
      ⟨none, w10, [.getOrgByName c orgName, .getVDCByName org vdcName false,
        .getVAppByName vdc name true, .printf "vApp state: 'RESOLVED'\n",
        .printf ("Deleting vApp '" ++ name ++ "'...\n"), .vAppDelete vApp,
        .waitTaskCompletion task,
        .printf ("vApp '" ++ name ++ "' successfully deleted.\n")]⟩ := by
    simp [deleteVAppByName, hOrg, hVdc, hVApp, hs, hDelete, hWait]
  have hmain : main sdk vcdUrl orgName vdcName apiToken name w =
      ⟨0, w10, [.setEnableLogging true, .parseRequestURI (vcdUrl ++ "/api"),
        .newVCDClient url false, .setApiToken c orgName apiToken,
        .getRdeType c "vmware" "capvcdCluster" "1.3.0", .getRdesByName t name,
        .rdeDelete rde,
        .getOrgByName c orgName, .getVDCByName org vdcName false,
        .getVAppByName vdc name true, .printf "vApp state: 'RESOLVED'\n",
        .printf ("Deleting vApp '" ++ name ++ "'...\n"), .vAppDelete vApp,
        .waitTaskCompletion task,
        .printf ("vApp '" ++ name ++ "' successfully deleted.\n")]⟩ := by
    simp [main, hinit, hrde, hvapp]
  rw [hmain, hrde, hvapp]
  refine ⟨rfl, rfl, rfl, rfl, rfl, ?_, ?_, ?_, ?_⟩
  · simp [List.filter, Event.isDeleteStep]
  · simp [printed]
  · simp [printed]
  · simp [printed]

theorem main_scenarioA_witness :
    (main (scripted happy) "https://vcd.example" "acme" "dc1" "tok" "c1" 0).result = 0
      ∧ (main (scripted happy) "https://vcd.example" "acme" "dc1" "tok" "c1" 0).trace.filter
          Event.isDeleteStep =
        [.rdeDelete ⟨7, "c1"⟩, .vAppDelete ⟨"acme", "dc1", "c1", 1⟩,
          .waitTaskCompletion ⟨"task/1"⟩] :=
  have h := main_scenarioA (scripted happy) "https://vcd.example" "acme" "dc1" "tok" "c1"
    "https://vcd.example/api" 0 1 2 3 4 5 6 7 8 9 10 client0
    ⟨"vmware", "capvcdCluster", "1.3.0"⟩ ⟨7, "c1"⟩ ⟨"acme"⟩ ⟨"acme", "dc1"⟩
    ⟨"acme", "dc1", "c1", 1⟩ ⟨"task/1"⟩ rfl rfl rfl rfl rfl rfl rfl rfl rfl rfl rfl rfl
  ⟨h.1, h.2.2.2.2.2.1⟩

/-! ## Running the workflow twice over the remote model -/

theorem entityNotFound_hasPrefix : HasPrefix entityNotFound.Error enfMarker = true := by
  decide

theorem filter_rdeMatches_after_delete (t : DefinedEntityType) (name : String)
    (e : DefinedEntity) (l : List RdeRec)
    (h : (l.filter (rdeMatches t name)).map RdeRec.entity = [e]) :
    (l.filter (fun r => !decide (r.entity.id = e.id))).filter (rdeMatches t name) = [] := by
  rw [List.filter_filter]
  have hcomm : l.filter (fun a => rdeMatches t name a && !decide (a.entity.id = e.id)) =
      (l.filter (rdeMatches t name)).filter (fun r => !decide (r.entity.id = e.id)) := by
    rw [List.filter_filter]
    congr 1
    funext a
    exact Bool.and_comm _ _
  rw [hcomm]
  match hm : l.filter (rdeMatches t name), h with
  | [], h => simp
  | [r], h =>
    simp only [List.map_cons, List.map_nil, List.cons.injEq, and_true] at h
    simp [h]
  | _ :: _ :: _, h => simp at h

theorem find_vAppMatches_after_delete (vdc : Vdc) (name : String) (l : List VApp) :
    (l.filter (fun x => !vAppMatches vdc name x)).find? (vAppMatches vdc name) = none := by
  rw [List.find?_eq_none]
  intro x hx
  have := (List.mem_filter.mp hx).2
  simpa using this

theorem remote_getRdeType (s : Remote) (c : VCDClient) (h : capvcdType ∈ s.rdeTypes) :
    remoteSDK.getRdeType c "vmware" "capvcdCluster" "1.3.0" s = (.ok capvcdType, s) := by
  unfold capvcdType at h
  simp [remoteSDK, capvcdType, h]

theorem remote_getRdeType_missing (s : Remote) (c : VCDClient) (h : capvcdType ∉ s.rdeTypes) :
    remoteSDK.getRdeType c "vmware" "capvcdCluster" "1.3.0" s = (.error entityNotFound, s) := by
  unfold capvcdType at h
  simp [remoteSDK, h]

theorem remote_rde_absent (s : Remote) (c : VCDClient) (name : String)
    (ht : capvcdType ∈ s.rdeTypes)
    (hf : s.rdes.filter (rdeMatches capvcdType name) = []) :
    deleteCapvcdRdeByName remoteSDK c name s =
      ⟨.returned none, s, [.getRdeType c "vmware" "capvcdCluster" "1.3.0",
        .getRdesByName capvcdType name]⟩ := by
  have hQuery : remoteSDK.getRdesByName capvcdType name s = (.error entityNotFound, s) := by
    simp [remoteSDK, hf]
  simp [deleteCapvcdRdeByName, remote_getRdeType s c ht, hQuery, entityNotFound_hasPrefix]

theorem remote_rde_step (s : Remote) (c : VCDClient) (name : String)
    (h : (deleteCapvcdRdeByName remoteSDK c name s).result = .returned none) :
    capvcdType ∈ s.rdeTypes
      ∧ ∃ rdes, (deleteCapvcdRdeByName remoteSDK c name s).world = { s with rdes := rdes }
        ∧ rdes.filter (rdeMatches capvcdType name) = [] := by
  by_cases ht : capvcdType ∈ s.rdeTypes
  · refine ⟨ht, ?_⟩
    have hType := remote_getRdeType s c ht
    match hl : (s.rdes.filter (rdeMatches capvcdType name)).map RdeRec.entity with
    | [] =>
      have hf : s.rdes.filter (rdeMatches capvcdType name) = [] := List.map_eq_nil_iff.mp hl
      rw [remote_rde_absent s c name ht hf]
      exact ⟨s.rdes, rfl, hf⟩
    | [e] =>
      have hQuery : remoteSDK.getRdesByName capvcdType name s = (.ok [e], s) := by
        simp [remoteSDK, hl]
      cases hfault : s.rdeDeleteFault with
      | some err =>
        have hDel : remoteSDK.rdeDelete e s = (some err, s) := by
          simp [remoteSDK, hfault]
        simp [deleteCapvcdRdeByName, hType, hQuery, hDel] at h
      | none =>
        have hDel : remoteSDK.rdeDelete e s = (none, s.dropRde e.id) := by
          simp [remoteSDK, hfault]
        have hrun : (deleteCapvcdRdeByName remoteSDK c name s).world = s.dropRde e.id := by
          simp [deleteCapvcdRdeByName, hType, hQuery, hDel]
        rw [hrun]
        exact ⟨s.rdes.filter (fun r => !decide (r.entity.id = e.id)),
          by simp [Remote.dropRde, hfault],
          filter_rdeMatches_after_delete capvcdType name e s.rdes hl⟩
    | e1 :: e2 :: l =>
      have hQuery : remoteSDK.getRdesByName capvcdType name s = (.ok (e1 :: e2 :: l), s) := by
        simp [remoteSDK, hl]
      simp [deleteCapvcdRdeByName, hType, hQuery] at h
  · have hType := remote_getRdeType_missing s c ht
    simp [deleteCapvcdRdeByName, hType] at h

theorem remote_vApp_absent (s : Remote) (c : VCDClient) (orgName vdcName name : String)
    (ho : orgName ∈ s.orgs) (hv : (orgName, vdcName) ∈ s.vdcs)
    (hf : s.vapps.find? (vAppMatches ⟨orgName, vdcName⟩ name) = none) :
    deleteVAppByName remoteSDK c orgName vdcName name s =
      ⟨none, s, [.getOrgByName c orgName, .getVDCByName ⟨orgName⟩ vdcName false,
        .getVAppByName ⟨orgName, vdcName⟩ name true]⟩ := by
  have hOrg : remoteSDK.getOrgByName c orgName s = (.ok ⟨orgName⟩, s) := by
    simp [remoteSDK, ho]
  have hVdc : remoteSDK.getVDCByName ⟨orgName⟩ vdcName false s = (.ok ⟨orgName, vdcName⟩, s) := by
    simp [remoteSDK, hv]
  have hVApp : remoteSDK.getVAppByName ⟨orgName, vdcName⟩ name true s =
      (.error entityNotFound, s) := by
    simp [remoteSDK, hf]
  simp [deleteVAppByName, hOrg, hVdc, hVApp, entityNotFound_hasPrefix]

theorem remote_vApp_step (s : Remote) (c : VCDClient) (orgName vdcName name : String)
    (h : (deleteVAppByName remoteSDK c orgName vdcName name s).result = none) :
    orgName ∈ s.orgs ∧ (orgName, vdcName) ∈ s.vdcs
      ∧ ∃ vapps, (deleteVAppByName remoteSDK c orgName vdcName name s).world =
          { s with vapps := vapps }
        ∧ vapps.find? (vAppMatches ⟨orgName, vdcName⟩ name) = none := by
  by_cases ho : orgName ∈ s.orgs
  · have hOrg : remoteSDK.getOrgByName c orgName s = (.ok ⟨orgName⟩, s) := by
      simp [remoteSDK, ho]
    by_cases hv : (orgName, vdcName) ∈ s.vdcs
    · have hVdc : remoteSDK.getVDCByName ⟨orgName⟩ vdcName false s =
          (.ok ⟨orgName, vdcName⟩, s) := by
        simp [remoteSDK, hv]
      refine ⟨ho, hv, ?_⟩
      match hfind : s.vapps.find? (vAppMatches ⟨orgName, vdcName⟩ name) with
      | none =>
        rw [remote_vApp_absent s c orgName vdcName name ho hv hfind]
        exact ⟨s.vapps, rfl, hfind⟩
      | some v =>
        have hVApp : remoteSDK.getVAppByName ⟨orgName, vdcName⟩ name true s = (.ok v, s) := by
          simp [remoteSDK, hfind]
        have hkey : vAppMatches ⟨orgName, vdcName⟩ name v = true := List.find?_some hfind
        have hk : v.org = orgName ∧ v.vdc = vdcName ∧ v.name = name := by
          simpa [vAppMatches] using hkey
        by_cases hs : statusString remoteSDK v.status ≠ "RESOLVED"
        · simp [deleteVAppByName, hOrg, hVdc, hVApp, hs] at h
        · cases hfault : s.vAppDeleteFault with
          | some err =>
            have hDel : remoteSDK.vAppDelete v s = (.error err, s) := by
              simp [remoteSDK, hfault]
            simp [deleteVAppByName, hOrg, hVdc, hVApp, hs, hDel] at h
          | none =>
            have hDel : remoteSDK.vAppDelete v s =
                (.ok ⟨"task/" ++ v.name⟩, s.dropVApp ⟨orgName, vdcName⟩ name) := by
              simp [remoteSDK, hfault, hk.1, hk.2.1, hk.2.2]
            cases hwait : s.taskFault with
            | some err =>
              have hWait : remoteSDK.waitTaskCompletion ⟨"task/" ++ v.name⟩
                  (s.dropVApp ⟨orgName, vdcName⟩ name) =
                  (some err, s.dropVApp ⟨orgName, vdcName⟩ name) := by
                simp [remoteSDK, Remote.dropVApp, hwait]
              simp [deleteVAppByName, hOrg, hVdc, hVApp, hs, hDel, hWait] at h
            | none =>
              have hWait : remoteSDK.waitTaskCompletion ⟨"task/" ++ v.name⟩
                  (s.dropVApp ⟨orgName, vdcName⟩ name) =
                  (none, s.dropVApp ⟨orgName, vdcName⟩ name) := by
                simp [remoteSDK, Remote.dropVApp, hwait]
              have hrun : (deleteVAppByName remoteSDK c orgName vdcName name s).world =
                  s.dropVApp ⟨orgName, vdcName⟩ name := by
                simp [deleteVAppByName, hOrg, hVdc, hVApp, hs, hDel, hWait]
              rw [hrun]
              exact ⟨s.vapps.filter (fun x => !vAppMatches ⟨orgName, vdcName⟩ name x),
                by simp [Remote.dropVApp, hfault, hwait],
                find_vAppMatches_after_delete ⟨orgName, vdcName⟩ name s.vapps⟩
    · have hVdc : remoteSDK.getVDCByName ⟨orgName⟩ vdcName false s =
          (.error entityNotFound, s) := by
        simp [remoteSDK, hv]
      simp [deleteVAppByName, hOrg, hVdc] at h
  · have hOrg : remoteSDK.getOrgByName c orgName s = (.error entityNotFound, s) := by
      simp [remoteSDK, ho]
    simp [deleteVAppByName, hOrg] at h

theorem remote_initVCDClient (s : Remote) (vcdUrl orgName apiToken : String) :
    initVCDClient remoteSDK vcdUrl orgName apiToken s =
      ⟨.ok ⟨vcdUrl ++ "/api"⟩, s, [.setEnableLogging true, .parseRequestURI (vcdUrl ++ "/api"),
        .newVCDClient (vcdUrl ++ "/api") false,
        .setApiToken ⟨vcdUrl ++ "/api"⟩ orgName apiToken]⟩ := by
  simp [initVCDClient, remoteSDK]

/-- C6: over the remote model (a successful delete removes the entity or vApp, a lookup of
an absent one fails with the not-found marker), if `main` has exited with status 0 from a
state, then `main` with the same arguments on the state it left exits with status 0 again,
leaves that state unchanged, and its trace consists of session establishment and the five
lookups only: no entity delete, no vApp delete, no task wait. -/
theorem workflow_rerun_is_noop (s : Remote) (vcdUrl orgName vdcName apiToken name : String)
    (hFirst : (main remoteSDK vcdUrl orgName vdcName apiToken name s).result = 0) :
    (main remoteSDK vcdUrl orgName vdcName apiToken name
        (main remoteSDK vcdUrl orgName vdcName apiToken name s).world).result = 0
      ∧ (main remoteSDK vcdUrl orgName vdcName apiToken name
          (main remoteSDK vcdUrl orgName vdcName apiToken name s).world).world =
        (main remoteSDK vcdUrl orgName vdcName apiToken name s).world
      ∧ (main remoteSDK vcdUrl orgName vdcName apiToken name
          (main remoteSDK vcdUrl orgName vdcName apiToken name s).world).trace =
        [.setEnableLogging true, .parseRequestURI (vcdUrl ++ "/api"),
          .newVCDClient (vcdUrl ++ "/api") false,
          .setApiToken ⟨vcdUrl ++ "/api"⟩ orgName apiToken,
          .getRdeType ⟨vcdUrl ++ "/api"⟩ "vmware" "capvcdCluster" "1.3.0",
          .getRdesByName capvcdType name,
          .getOrgByName ⟨vcdUrl ++ "/api"⟩ orgName, .getVDCByName ⟨orgName⟩ vdcName false,
          .getVAppByName ⟨orgName, vdcName⟩ name true]
      ∧ ∀ ev ∈ (main remoteSDK vcdUrl orgName vdcName apiToken name
          (main remoteSDK vcdUrl orgName vdcName apiToken name s).world).trace,
          ev.isDeleteStep = false := by
  have hinit := fun s => remote_initVCDClient s vcdUrl orgName apiToken
  rcases hr : deleteCapvcdRdeByName remoteSDK ⟨vcdUrl ++ "/api"⟩ name s with ⟨r2, s1, t2⟩
  cases r2 with
  | panicked msg => simp [main, hinit, hr] at hFirst
  | returned err =>
    cases err with
    | some e => simp [main, hinit, hr] at hFirst
    | none =>
      have hA := remote_rde_step s ⟨vcdUrl ++ "/api"⟩ name (by rw [hr])
      rw [hr] at hA
      obtain ⟨ht, rdes, hw, hf⟩ := hA
      simp only at hw
      rcases hv : deleteVAppByName remoteSDK ⟨vcdUrl ++ "/api"⟩ orgName vdcName name s1
        with ⟨r3, s2, t3⟩
      cases r3 with
      | some e => simp [main, hinit, hr, hv] at hFirst
      | none =>
        have hB := remote_vApp_step s1 ⟨vcdUrl ++ "/api"⟩ orgName vdcName name (by rw [hv])
        rw [hv] at hB
        obtain ⟨ho, hvdc, vapps, hw2, hfind⟩ := hB
        simp only at hw2
        have hworld : (main remoteSDK vcdUrl orgName vdcName apiToken name s).world = s2 := by
          simp [main, hinit, hr, hv]
        rw [hworld]
        have ht2 : capvcdType ∈ s2.rdeTypes := by
          rw [hw2, hw]
          exact ht
        have hf2 : s2.rdes.filter (rdeMatches capvcdType name) = [] := by
          rw [hw2, hw]
          exact hf
        have ho2 : orgName ∈ s2.orgs := by
          rw [hw2]
          exact ho
        have hvdc2 : (orgName, vdcName) ∈ s2.vdcs := by
          rw [hw2]
          exact hvdc
        have hfind2 : s2.vapps.find? (vAppMatches ⟨orgName, vdcName⟩ name) = none := by
          rw [hw2]
          exact hfind
        have hmain : main remoteSDK vcdUrl orgName vdcName apiToken name s2 =
            ⟨0, s2, [.setEnableLogging true, .parseRequestURI (vcdUrl ++ "/api"),
              .newVCDClient (vcdUrl ++ "/api") false,
              .setApiToken ⟨vcdUrl ++ "/api"⟩ orgName apiToken,
              .getRdeType ⟨vcdUrl ++ "/api"⟩ "vmware" "capvcdCluster" "1.3.0",
              .getRdesByName capvcdType name,
              .getOrgByName ⟨vcdUrl ++ "/api"⟩ orgName, .getVDCByName ⟨orgName⟩ vdcName false,
              .getVAppByName ⟨orgName, vdcName⟩ name true]⟩ := by
          simp [main, hinit, remote_rde_absent s2 _ name ht2 hf2,
            remote_vApp_absent s2 _ orgName vdcName name ho2 hvdc2 hfind2]
        rw [hmain]
        refine ⟨rfl, rfl, rfl, ?_⟩
        intro ev hev
        simp only [List.mem_cons, List.mem_singleton, List.not_mem_nil, or_false] at hev
        rcases hev with h | h | h | h | h | h | h | h | h <;> subst h <;> rfl

theorem workflow_rerun_is_noop_witness :
    (main remoteSDK "https://vcd.example" "acme" "dc1" "tok" "c1" remote0).result = 0
      ∧ (main remoteSDK "https://vcd.example" "acme" "dc1" "tok" "c1"
          (main remoteSDK "https://vcd.example" "acme" "dc1" "tok" "c1" remote0).world).result = 0
      ∧ (main remoteSDK "https://vcd.example" "acme" "dc1" "tok" "c1"
          (main remoteSDK "https://vcd.example" "acme" "dc1" "tok" "c1" remote0).world).world =
        (main remoteSDK "https://vcd.example" "acme" "dc1" "tok" "c1" remote0).world :=
  have h := workflow_rerun_is_noop remote0 "https://vcd.example" "acme" "dc1" "tok" "c1"
    (by decide)
  ⟨by decide, h.1, h.2.1⟩

end Cleanup
